import Mathlib

/-!
Verification of the Farm Record Reconciliation Engine.

This file gives a shallow embedding of the core logic of the repository
(src/app/utils.py and src/app/crud.py) and proves or refutes the spec
claims about it.

Modelling conventions:
* Python floats are modelled as rationals (`ℚ`); arithmetic on
  coordinates, acreages and distances is exact.  The rounding helpers
  (`round4`, the `.2f` format) are modelled with round-half-to-even on
  rationals, the idealisation of Python's `round`/`format` behaviour.
* Timestamps are modelled as integers (`ℤ`); `to_aware_utc` is the
  identity on a present timestamp and returns the current clock value
  for an absent one, faithful to the source (timezone conversion is the
  identity in this model, and the wall clock is threaded as an explicit
  `now` argument).
* GeoJSON geometry dictionaries are modelled by the `Geometry`
  structure: a type tag and an arbitrarily nested coordinate value.
  `none : Option Geometry` stands for a `None` (or falsy/empty)
  geometry, exactly the cases the source treats as absent.
* The great-circle distance `haversine_km` is transcendental; it is
  embedded over `ℝ` (with `Real.sin`, `Real.arctan`, ...) and the
  metric claims are proved about that embedding.  The merge logic of
  crud.py, which only compares the computed distance to a threshold, is
  kept parametric in the distance function it calls (the source fixes
  it to `utils.haversine_km`); every structural claim about the merge
  is proved for an arbitrary such function.
-/

/-- A Python value appearing inside a GeoJSON `coordinates` payload:
a number, a (possibly nested) list, or any other (non-numeric,
non-list) value. -/
inductive GVal where
  | num (q : ℚ)
  | arr (l : List GVal)
  | other

mutual
/-- Equality on geometry values is decidable. -/
def decEqGVal : (a b : GVal) → Decidable (a = b)
  | GVal.num x, GVal.num y =>
    match decEq x y with
    | isTrue h => isTrue (by rw [h])
    | isFalse h => isFalse (by intro hh; injection hh; exact h (by assumption))
  | GVal.num _, GVal.arr _ => isFalse (by intro h; exact GVal.noConfusion h)
  | GVal.num _, GVal.other => isFalse (by intro h; exact GVal.noConfusion h)
  | GVal.arr _, GVal.num _ => isFalse (by intro h; exact GVal.noConfusion h)
  | GVal.arr xs, GVal.arr ys =>
    match decEqGValList xs ys with
    | isTrue h => isTrue (by rw [h])
    | isFalse h => isFalse (by intro hh; injection hh; exact h (by assumption))
  | GVal.arr _, GVal.other => isFalse (by intro h; exact GVal.noConfusion h)
  | GVal.other, GVal.num _ => isFalse (by intro h; exact GVal.noConfusion h)
  | GVal.other, GVal.arr _ => isFalse (by intro h; exact GVal.noConfusion h)
  | GVal.other, GVal.other => isTrue rfl

/-- Equality on lists of geometry values is decidable. -/
def decEqGValList : (a b : List GVal) → Decidable (a = b)
  | [], [] => isTrue rfl
  | [], _ :: _ => isFalse (by intro h; exact List.noConfusion h)
  | _ :: _, [] => isFalse (by intro h; exact List.noConfusion h)
  | x :: xs, y :: ys =>
    match decEqGVal x y, decEqGValList xs ys with
    | isTrue h1, isTrue h2 => isTrue (by rw [h1, h2])
    | isFalse h1, _ => isFalse (by intro h; injection h; exact h1 (by assumption))
    | isTrue _, isFalse h2 => isFalse (by intro h; injection h; exact h2 (by assumption))
end

instance : DecidableEq GVal := decEqGVal

/-- A GeoJSON geometry dictionary: the value of its `type` key (absent
keys give `none`) and the value of its `coordinates` key (an absent key
behaves like a non-list value and is modelled by `GVal.other`). -/
structure Geometry where
  gtype : Option String
  coordinates : GVal
deriving DecidableEq

mutual
/-- Embedding of `utils.flatten_coords`: flatten nested GeoJSON
coordinates to the list of `(lon, lat)` numeric pairs; a two-element
all-numeric list is kept as a pair, anything non-list contributes
nothing, and other lists are flattened recursively. -/
def flatten_coords : GVal → List (ℚ × ℚ)
  | GVal.num _ => []
  | GVal.other => []
  | GVal.arr l =>
    match l with
    | [GVal.num a, GVal.num b] => [(a, b)]
    | _ => flattenEach l

/-- The accumulation loop of `utils.flatten_coords`: flatten each list
entry and concatenate the results. -/
def flattenEach : List GVal → List (ℚ × ℚ)
  | [] => []
  | c :: cs => flatten_coords c ++ flattenEach cs
end

/-- The `Point` fast path of `utils.representative_point_from_geometry`:
a list of length at least two whose first two entries are numeric gives
`(lat, lon)` from the leading `[lon, lat, ...]`. -/
def pointHead : List GVal → Option (ℚ × ℚ)
  | GVal.num lon :: GVal.num lat :: _ => some (lat, lon)
  | _ => none

/-- Embedding of `utils.representative_point_from_geometry`: `(lat,
lon)` from GeoJSON, the point itself for a numeric `Point`, otherwise
the centroid of all flattened vertices; `none` when nothing numeric can
be extracted. -/
def representative_point_from_geometry : Option Geometry → Option (ℚ × ℚ)
  | none => none
  | some g =>
    let pointCase : Option (ℚ × ℚ) :=
      if g.gtype = some "Point" then
        match g.coordinates with
        | GVal.arr l => pointHead l
        | _ => none
      else none
    match pointCase with
    | some p => some p
    | none =>
      let pts := flatten_coords g.coordinates
      if pts = [] then none
      else some ((pts.map Prod.snd).sum / pts.length, (pts.map Prod.fst).sum / pts.length)

/-- Round half to even to an integer, the idealisation of Python's
`round` on the scaled value. -/
def rhe (q : ℚ) : ℤ :=
  let f := ⌊q⌋
  let r := q - f
  if r < 1/2 then f
  else if 1/2 < r then f + 1
  else if f % 2 = 0 then f else f + 1

/-- Embedding of `utils.round4` on a numeric value: round to 4 decimal
places. -/
def round4q (q : ℚ) : ℚ := (rhe (q * 10000) : ℚ) / 10000

/-- Embedding of `utils.round4` on an optional value: `None` stays
`None`. -/
def round4 : Option ℚ → Option ℚ
  | none => none
  | some q => some (round4q q)

/-- Fixed two-decimal rendering, the idealisation of Python's `:.2f`
format specifier. -/
def fmtFixed2 (q : ℚ) : String :=
  let n : ℤ := rhe (q * 100)
  let s := n.natAbs
  let ip := s / 100
  let fp := s % 100
  (if n < 0 then "-" else "") ++ toString ip ++ "." ++
    (if fp < 10 then "0" ++ toString fp else toString fp)

/-- Smallest number of decimal digits (up to the given fuel) after
which a rational has an exact decimal expansion. -/
def decScale : ℚ → Nat → Option Nat
  | q, 0 => if q.den = 1 then some 0 else none
  | q, fuel+1 => if q.den = 1 then some 0 else (decScale (q * 10) fuel).map Nat.succ

/-- Decimal digit string of a natural number, left-padded with zeros to
the given width. -/
def padDigits (n : Nat) (width : Nat) : String :=
  let s := toString n
  String.mk (List.replicate (width - s.length) '0') ++ s

/-- Rendering of a float value the way a Python f-string interpolates
it (`str` of the float): an integral value prints with a trailing
`.0`, a finite decimal prints its digits. -/
def pyRepr (q : ℚ) : String :=
  match decScale q 64 with
  | some 0 => toString q.num ++ ".0"
  | some k =>
    let scaled := (q * (10 : ℚ) ^ k).num
    let s := scaled.natAbs
    let ip := s / 10 ^ k
    let fp := s % 10 ^ k
    (if scaled < 0 then "-" else "") ++ toString ip ++ "." ++ padDigits fp k
  | none => toString q.num ++ " / " ++ toString q.den

/-- The flag reason built by `crud._decide_geometry_merge`, the
f-string `Geometry shift {d_km:.2f} km > {threshold} km`. -/
def shiftReason (d thr : ℚ) : String :=
  "Geometry shift " ++ fmtFixed2 d ++ " km > " ++ pyRepr thr ++ " km"

example : pyRepr 5 = "5.0" := by decide
example : fmtFixed2 (49/5) = "9.80" := by
  norm_num [fmtFixed2, rhe]
  decide
example : representative_point_from_geometry
    (some ⟨some "Point", GVal.arr [GVal.num (19817/1000), GVal.num (41329/1000)]⟩)
    = some (41329/1000, 19817/1000) := by
  norm_num [representative_point_from_geometry, pointHead]
example : representative_point_from_geometry
    (some ⟨some "Polygon", GVal.arr [GVal.arr [GVal.arr [GVal.num 0, GVal.num 0],
      GVal.arr [GVal.num 2, GVal.num 4]]]⟩) = some (2, 1) := by
  norm_num [representative_point_from_geometry, pointHead, flatten_coords, flattenEach]
  intro h
  simp at h

/-- Two-argument arctangent, the embedding of Python's `math.atan2`
(quadrant-correct arctangent; signed zeros do not exist in this
model). -/
noncomputable def atan2 (y x : ℝ) : ℝ :=
  if 0 < x then Real.arctan (y / x)
  else if x < 0 then
    (if 0 ≤ y then Real.arctan (y / x) + Real.pi else Real.arctan (y / x) - Real.pi)
  else if 0 < y then Real.pi / 2
  else if y < 0 then -(Real.pi / 2)
  else 0

/-- Embedding of Python's `math.radians`. -/
noncomputable def radians (x : ℝ) : ℝ := x * Real.pi / 180

/-- Embedding of `utils.haversine_km`: great-circle distance in
kilometers with Earth mean radius 6371.0088 km. -/
noncomputable def haversine_km (lat1 lon1 lat2 lon2 : ℝ) : ℝ :=
  let R : ℝ := 6371.0088
  let p1 := radians lat1
  let p2 := radians lat2
  let dp := p2 - p1
  let dl := radians (lon2 - lon1)
  let a := Real.sin (dp / 2) ^ 2 + Real.cos p1 * Real.cos p2 * Real.sin (dl / 2) ^ 2
  R * (2 * atan2 (Real.sqrt a) (Real.sqrt (1 - a)))

/-- A persisted farm row (`app.models.Farm`): nullable scalar columns,
an optional geometry, and a non-null timezone-aware timestamp. -/
structure Farm where
  farm_id : String
  farm_name : Option String
  acreage : Option ℚ
  latitude : Option ℚ
  longitude : Option ℚ
  geometry : Option Geometry
  source : String
  last_updated : ℤ
deriving DecidableEq

/-- An incoming candidate (`app.schemas.FarmBase`) as `crud.upsert_farm`
consumes it: every merge-relevant field optional except the identity
and the source tag; the timestamp is optional because crud guards every
use of it with a `None` check. -/
structure Payload where
  farm_id : String
  farm_name : Option String
  acreage : Option ℚ
  latitude : Option ℚ
  longitude : Option ℚ
  geometry : Option Geometry
  source : String
  last_updated : Option ℤ
deriving DecidableEq

/-- Python truthiness of an optional string: `None` and the empty
string are falsy. -/
def truthyStr : Option String → Bool
  | none => false
  | some s => s ≠ ""

/-- Embedding of `utils.to_aware_utc` on an optional timestamp: the
current clock value for `None`, the timestamp itself otherwise
(timezone conversion is the identity in this model). -/
def to_aware_utc (now : ℤ) : Option ℤ → ℤ
  | none => now
  | some t => t

/-- Embedding of `crud._is_newer`. -/
def _is_newer (existing_ts incoming_ts : ℤ) : Bool := existing_ts ≤ incoming_ts

/-- Embedding of `crud._rep_point`: representative point of a truthy
geometry. -/
def _rep_point : Option Geometry → Option (ℚ × ℚ)
  | none => none
  | some g => representative_point_from_geometry (some g)

/-- Embedding of `crud._derive_latlon_from_geom`. -/
def _derive_latlon_from_geom (geom : Option Geometry) : Option ℚ × Option ℚ :=
  match _rep_point geom with
  | none => (none, none)
  | some rp => (some (round4q rp.1), some (round4q rp.2))

/-- Embedding of `crud._rounded_latlon`. -/
def _rounded_latlon (lat lon : Option ℚ) : Option ℚ × Option ℚ :=
  (round4 lat, round4 lon)

/-- Embedding of `crud._insert_new_farm`: derive coordinates from the
geometry if possible, else take the payload's explicit ones; round;
the stored timestamp is the candidate's own if present, else the
ingestion time. -/
def _insert_new_farm (payload : Payload) (ingestion_ts : ℤ) : Farm :=
  let d := _derive_latlon_from_geom payload.geometry
  let chosen :=
    if d.1 = none ∧ d.2 = none then (payload.latitude, payload.longitude) else d
  let r := _rounded_latlon chosen.1 chosen.2
  { farm_id := payload.farm_id
    farm_name := payload.farm_name
    acreage := payload.acreage
    latitude := r.1
    longitude := r.2
    geometry := payload.geometry
    source := payload.source
    last_updated :=
      match payload.last_updated with
      | some t => t
      | none => ingestion_ts }

/-- Embedding of `crud._update_scalars_if_newer`: `farm_name` when
truthy and not older, `acreage` when present and not older; an absent
candidate timestamp is converted to the current clock value by
`_aware` before the comparison. -/
def _update_scalars_if_newer (obj : Farm) (payload : Payload) (existing_ts now : ℤ) :
    Farm :=
  let incoming_ts := to_aware_utc now payload.last_updated
  let obj1 :=
    if truthyStr payload.farm_name ∧ _is_newer existing_ts incoming_ts then
      { obj with farm_name := payload.farm_name }
    else obj
  if payload.acreage.isSome ∧ _is_newer existing_ts incoming_ts then
    { obj1 with acreage := payload.acreage }
  else obj1

/-- The comparison stage of `crud._decide_geometry_merge`, reached when
the candidate geometry is present and not stale. -/
def _decide_geometry_compare (old_geom new_geom : Option Geometry)
    (geom_diff_threshold_km : ℚ) (hav : ℚ → ℚ → ℚ → ℚ → ℚ) :
    Bool × Bool × Option String :=
  let old_pt := match old_geom with
    | some _ => _rep_point old_geom
    | none => none
  let new_pt := _rep_point new_geom
  match old_pt, new_pt with
  | some op, some np =>
    let d_km := hav op.1 op.2 np.1 np.2
    if geom_diff_threshold_km < d_km then
      (false, true, some (shiftReason d_km geom_diff_threshold_km))
    else (true, false, none)
  | _, _ => (true, false, none)

/-- Embedding of `crud._decide_geometry_merge`: returns
`(accept_update, geometry_flagged, reason)`.  The source computes the
distance with `utils.haversine_km`; the distance function is a
parameter here (see the file header). -/
def _decide_geometry_merge (old_geom new_geom : Option Geometry)
    (geom_diff_threshold_km : ℚ) (existing_ts : ℤ) (incoming_ts : Option ℤ)
    (hav : ℚ → ℚ → ℚ → ℚ → ℚ) : Bool × Bool × Option String :=
  match new_geom with
  | none => (false, false, none)
  | some _ =>
    match incoming_ts with
    | some t =>
      if t < existing_ts then (false, false, none)
      else _decide_geometry_compare old_geom new_geom geom_diff_threshold_km hav
    | none => _decide_geometry_compare old_geom new_geom geom_diff_threshold_km hav

/-- Embedding of `crud._apply_geometry_and_sync_latlon`: flagged
updates change nothing; an accepted geometry replaces the old one and
re-derives the coordinates; otherwise coordinates are re-derived from
the kept geometry, or, when there is no geometry at all, explicit
payload coordinates are taken individually if not stale. -/
def _apply_geometry_and_sync_latlon (obj : Farm) (payload : Payload)
    (accept_geom_update geometry_flagged : Bool) (existing_ts : ℤ)
    (incoming_ts : Option ℤ) : Farm :=
  if geometry_flagged then obj
  else if accept_geom_update then
    let obj1 := { obj with geometry := payload.geometry }
    let d := _derive_latlon_from_geom obj1.geometry
    match d.1, d.2 with
    | some lat, some lon => { obj1 with latitude := some lat, longitude := some lon }
    | _, _ => obj1
  else
    match obj.geometry with
    | some _ =>
      let d := _derive_latlon_from_geom obj.geometry
      match d.1, d.2 with
      | some lat, some lon => { obj with latitude := some lat, longitude := some lon }
      | _, _ => obj
    | none =>
      if (match incoming_ts with
          | none => true
          | some t => existing_ts ≤ t) then
        let obj1 := match payload.latitude with
          | some la => { obj with latitude := some (round4q la) }
          | none => obj
        match payload.longitude with
        | some lo => { obj1 with longitude := some (round4q lo) }
        | none => obj1
      else obj

/-- Embedding of `crud._finalize_metadata`: advance the timestamp only
to a present candidate timestamp that is not older, and overwrite the
source tag whenever the candidate supplies a truthy one. -/
def _finalize_metadata (obj : Farm) (source : String)
    (source_last_updated : Option ℤ) : Farm :=
  let obj1 := match source_last_updated with
    | some t => if obj.last_updated ≤ t then { obj with last_updated := t } else obj
    | none => obj
  if source ≠ "" then { obj1 with source := source } else obj1

/-- The update branch of `crud.upsert_farm` on an existing row: scalar
merge, geometry decision, geometry/coordinate sync, then
timestamp/source finalisation; returns `(obj, geometry_flagged,
flag_reason)`. -/
def upsert_existing (obj : Farm) (payload : Payload) (now : ℤ)
    (geom_diff_threshold_km : ℚ) (hav : ℚ → ℚ → ℚ → ℚ → ℚ) :
    Farm × Bool × Option String :=
  let existing_ts := obj.last_updated
  let incoming_ts := payload.last_updated
  let obj1 := _update_scalars_if_newer obj payload existing_ts now
  let dec := _decide_geometry_merge obj1.geometry payload.geometry
    geom_diff_threshold_km existing_ts incoming_ts hav
  let obj2 := _apply_geometry_and_sync_latlon obj1 payload dec.1 dec.2.1
    existing_ts incoming_ts
  let obj3 := _finalize_metadata obj2 payload.source payload.last_updated
  (obj3, dec.2.1, dec.2.2)

/-- Embedding of `crud.upsert_farm` for a single farm identity: insert
when no row exists (never flags), update otherwise. -/
def upsert_step (existing : Option Farm) (payload : Payload) (now : ℤ)
    (ingestion_ts : Option ℤ) (geom_diff_threshold_km : ℚ)
    (hav : ℚ → ℚ → ℚ → ℚ → ℚ) : Farm × Bool × Option String :=
  let ing := to_aware_utc now ingestion_ts
  match existing with
  | none => (_insert_new_farm payload ing, false, none)
  | some obj => upsert_existing obj payload now geom_diff_threshold_km hav

/-- One reconciliation call's inputs: the candidate, the wall clock,
the threshold and the distance function of that call. -/
structure UpdIn where
  payload : Payload
  now : ℤ
  thr : ℚ
  hav : ℚ → ℚ → ℚ → ℚ → ℚ

/-- A sequence of update calls applied to an existing record. -/
def runUpdates (f : Farm) : List UpdIn → Farm
  | [] => f
  | i :: is => runUpdates (upsert_existing f i.payload i.now i.thr i.hav).1 is

/-- Stable insertion into a distance-sorted list (after all entries
with distance not exceeding the new one), the semantics of Python's
stable `sorted` by distance key. -/
def insertByDist (x : Farm × ℚ) : List (Farm × ℚ) → List (Farm × ℚ)
  | [] => [x]
  | y :: ys => if y.2 ≤ x.2 then y :: insertByDist x ys else x :: y :: ys

/-- Stable sort by distance. -/
def sortByDist (l : List (Farm × ℚ)) : List (Farm × ℚ) :=
  l.foldl (fun acc x => insertByDist x acc) []

/-- Embedding of `crud.farms_within_radius`: for each row take the
representative point of its geometry (no fallback to the stored
latitude/longitude columns), keep rows within the radius, sort by
distance.  The source computes the distance with `utils.haversine_km`;
the distance function is a parameter here (see the file header). -/
def farms_within_radius (farms : List Farm) (lat lon radius_km : ℚ)
    (hav : ℚ → ℚ → ℚ → ℚ → ℚ) : List (Farm × ℚ) :=
  let results := farms.foldr
    (fun f acc =>
      match representative_point_from_geometry f.geometry with
      | none => acc
      | some rp =>
        let d := hav lat lon rp.1 rp.2
        if d ≤ radius_km then (f, d) :: acc else acc)
    []
  sortByDist results

/-- Embedding of `utils.farm_rep_point`: the selectable
representative-point strategy offered by utils (never called by
`crud.farms_within_radius` in the source). -/
def farm_rep_point (f : Farm) (use : String) : Option (ℚ × ℚ) :=
  if use = "latlon" then
    match f.latitude, f.longitude with
    | some a, some b => some (a, b)
    | _, _ => none
  else if use = "geometry" then representative_point_from_geometry f.geometry
  else
    match f.latitude, f.longitude with
    | some a, some b => some (a, b)
    | _, _ => representative_point_from_geometry f.geometry

/-- The recency gate exactly as the spec words it: the candidate
timestamp is absent, or is at least the existing one.  The geometry
decision and the coordinate-sync gate of the source match this
definition; the scalar gate is compared against it in the theorems
below. -/
def incomingNewer (existing_ts : ℤ) (incoming_ts : Option ℤ) : Bool :=
  match incoming_ts with
  | none => true
  | some t => existing_ts ≤ t

/-- The coordinate pair the spec's geometry-coordinate invariant
prescribes, following its words: the representative point of the
stored geometry, rounded to 4 decimals, absent when no point can be
derived. -/
def specSyncedCoords (geom : Option Geometry) : Option ℚ × Option ℚ :=
  match representative_point_from_geometry geom with
  | none => (none, none)
  | some rp => (some (round4q rp.1), some (round4q rp.2))

/-- The geometry-coordinate consistency invariant in its guarded form:
whenever the stored geometry yields a representative point, the stored
coordinates are that point rounded to 4 decimals. -/
def syncOK (f : Farm) : Prop :=
  ∀ g np, f.geometry = some g →
    representative_point_from_geometry (some g) = some np →
    f.latitude = some (round4q np.1) ∧ f.longitude = some (round4q np.2)

theorem scalars_geometry (obj : Farm) (p : Payload) (ets now : ℤ) :
    (_update_scalars_if_newer obj p ets now).geometry = obj.geometry := by
  simp only [_update_scalars_if_newer]
  split_ifs <;> rfl

theorem scalars_latitude (obj : Farm) (p : Payload) (ets now : ℤ) :
    (_update_scalars_if_newer obj p ets now).latitude = obj.latitude := by
  simp only [_update_scalars_if_newer]
  split_ifs <;> rfl

theorem scalars_longitude (obj : Farm) (p : Payload) (ets now : ℤ) :
    (_update_scalars_if_newer obj p ets now).longitude = obj.longitude := by
  simp only [_update_scalars_if_newer]
  split_ifs <;> rfl

theorem scalars_last_updated (obj : Farm) (p : Payload) (ets now : ℤ) :
    (_update_scalars_if_newer obj p ets now).last_updated = obj.last_updated := by
  simp only [_update_scalars_if_newer]
  split_ifs <;> rfl

theorem scalars_source (obj : Farm) (p : Payload) (ets now : ℤ) :
    (_update_scalars_if_newer obj p ets now).source = obj.source := by
  simp only [_update_scalars_if_newer]
  split_ifs <;> rfl

theorem scalars_farm_id (obj : Farm) (p : Payload) (ets now : ℤ) :
    (_update_scalars_if_newer obj p ets now).farm_id = obj.farm_id := by
  simp only [_update_scalars_if_newer]
  split_ifs <;> rfl

theorem scalars_farm_name (obj : Farm) (p : Payload) (ets now : ℤ) :
    (_update_scalars_if_newer obj p ets now).farm_name =
      (if truthyStr p.farm_name ∧ _is_newer ets (to_aware_utc now p.last_updated) then
        p.farm_name else obj.farm_name) := by
  simp only [_update_scalars_if_newer]
  split_ifs <;> rfl

theorem scalars_acreage (obj : Farm) (p : Payload) (ets now : ℤ) :
    (_update_scalars_if_newer obj p ets now).acreage =
      (if p.acreage.isSome ∧ _is_newer ets (to_aware_utc now p.last_updated) then
        p.acreage else obj.acreage) := by
  simp only [_update_scalars_if_newer]
  split_ifs <;> rfl

theorem finalize_geometry (obj : Farm) (src : String) (slu : Option ℤ) :
    (_finalize_metadata obj src slu).geometry = obj.geometry := by
  cases slu <;> simp only [_finalize_metadata] <;> split_ifs <;> rfl

theorem finalize_latitude (obj : Farm) (src : String) (slu : Option ℤ) :
    (_finalize_metadata obj src slu).latitude = obj.latitude := by
  cases slu <;> simp only [_finalize_metadata] <;> split_ifs <;> rfl

theorem finalize_longitude (obj : Farm) (src : String) (slu : Option ℤ) :
    (_finalize_metadata obj src slu).longitude = obj.longitude := by
  cases slu <;> simp only [_finalize_metadata] <;> split_ifs <;> rfl

theorem finalize_farm_name (obj : Farm) (src : String) (slu : Option ℤ) :
    (_finalize_metadata obj src slu).farm_name = obj.farm_name := by
  cases slu <;> simp only [_finalize_metadata] <;> split_ifs <;> rfl

theorem finalize_acreage (obj : Farm) (src : String) (slu : Option ℤ) :
    (_finalize_metadata obj src slu).acreage = obj.acreage := by
  cases slu <;> simp only [_finalize_metadata] <;> split_ifs <;> rfl

theorem finalize_farm_id (obj : Farm) (src : String) (slu : Option ℤ) :
    (_finalize_metadata obj src slu).farm_id = obj.farm_id := by
  cases slu <;> simp only [_finalize_metadata] <;> split_ifs <;> rfl

theorem finalize_source (obj : Farm) (src : String) (slu : Option ℤ) :
    (_finalize_metadata obj src slu).source =
      (if src ≠ "" then src else obj.source) := by
  cases slu <;> simp only [_finalize_metadata] <;> split_ifs <;> rfl

theorem finalize_last_updated (obj : Farm) (src : String) (slu : Option ℤ) :
    (_finalize_metadata obj src slu).last_updated =
      (match slu with
       | some t => if obj.last_updated ≤ t then t else obj.last_updated
       | none => obj.last_updated) := by
  cases slu <;> simp only [_finalize_metadata] <;> split_ifs <;> rfl

theorem apply_flagged_eq (obj : Farm) (p : Payload) (a : Bool) (ets : ℤ)
    (its : Option ℤ) :
    _apply_geometry_and_sync_latlon obj p a true ets its = obj := by
  simp [_apply_geometry_and_sync_latlon]

/-- A Point geometry at `(lat 41, lon 19)`. -/
def geomA : Geometry := ⟨some "Point", GVal.arr [GVal.num 19, GVal.num 41]⟩

/-- A Point geometry at `(lat 42, lon 20)`. -/
def geomB : Geometry := ⟨some "Point", GVal.arr [GVal.num 20, GVal.num 42]⟩

/-- An existing row consistent with `geomA`. -/
def farmA : Farm :=
  { farm_id := "F1", farm_name := some "Old", acreage := some 10,
    latitude := some 41, longitude := some 19, geometry := some geomA,
    source := "csv", last_updated := 0 }

/-- A newer candidate moving the farm to `geomB`. -/
def candB : Payload :=
  { farm_id := "F1", farm_name := some "New", acreage := some 20,
    latitude := none, longitude := none, geometry := some geomB,
    source := "geojson", last_updated := some 1 }

/-- A distance function that always answers 10 km. -/
def havTen : ℚ → ℚ → ℚ → ℚ → ℚ := fun _ _ _ _ => 10

/-- C2: a flagged update leaves the record's geometry, latitude and
longitude exactly as they were before the call. -/
theorem c2_flagged_update_preserves_geometry_and_coords
    (obj : Farm) (p : Payload) (now : ℤ) (thr : ℚ) (hav : ℚ → ℚ → ℚ → ℚ → ℚ)
    (h : (upsert_existing obj p now thr hav).2.1 = true) :
    (upsert_existing obj p now thr hav).1.geometry = obj.geometry ∧
    (upsert_existing obj p now thr hav).1.latitude = obj.latitude ∧
    (upsert_existing obj p now thr hav).1.longitude = obj.longitude := by
  simp only [upsert_existing] at h ⊢
  rw [finalize_geometry, finalize_latitude, finalize_longitude, h,
    apply_flagged_eq, scalars_geometry, scalars_latitude, scalars_longitude]
  exact ⟨rfl, rfl, rfl⟩

/-- C2 witness: a concrete flagged run (distance 10 km > 5 km) keeps
geometry and both coordinates. -/
theorem c2_flagged_update_preserves_geometry_and_coords_witness :
    (upsert_existing farmA candB 5 5 havTen).2.1 = true ∧
    (upsert_existing farmA candB 5 5 havTen).1.geometry = farmA.geometry ∧
    (upsert_existing farmA candB 5 5 havTen).1.latitude = farmA.latitude ∧
    (upsert_existing farmA candB 5 5 havTen).1.longitude = farmA.longitude := by
  have hf : (upsert_existing farmA candB 5 5 havTen).2.1 = true := by
    simp +decide only [upsert_existing, _update_scalars_if_newer,
      _decide_geometry_merge, _decide_geometry_compare, _rep_point,
      representative_point_from_geometry, pointHead, truthyStr, _is_newer,
      to_aware_utc, havTen, farmA, candB, geomA, geomB]
  exact ⟨hf, c2_flagged_update_preserves_geometry_and_coords farmA candB 5 5 havTen hf⟩

theorem apply_last_updated (obj : Farm) (p : Payload) (a fl : Bool) (ets : ℤ)
    (its : Option ℤ) :
    (_apply_geometry_and_sync_latlon obj p a fl ets its).last_updated =
      obj.last_updated := by
  simp only [_apply_geometry_and_sync_latlon]
  repeat' split
  all_goals rfl

theorem apply_farm_name (obj : Farm) (p : Payload) (a fl : Bool) (ets : ℤ)
    (its : Option ℤ) :
    (_apply_geometry_and_sync_latlon obj p a fl ets its).farm_name =
      obj.farm_name := by
  simp only [_apply_geometry_and_sync_latlon]
  repeat' split
  all_goals rfl

theorem apply_acreage (obj : Farm) (p : Payload) (a fl : Bool) (ets : ℤ)
    (its : Option ℤ) :
    (_apply_geometry_and_sync_latlon obj p a fl ets its).acreage = obj.acreage := by
  simp only [_apply_geometry_and_sync_latlon]
  repeat' split
  all_goals rfl

theorem apply_source (obj : Farm) (p : Payload) (a fl : Bool) (ets : ℤ)
    (its : Option ℤ) :
    (_apply_geometry_and_sync_latlon obj p a fl ets its).source = obj.source := by
  simp only [_apply_geometry_and_sync_latlon]
  repeat' split
  all_goals rfl

theorem apply_farm_id (obj : Farm) (p : Payload) (a fl : Bool) (ets : ℤ)
    (its : Option ℤ) :
    (_apply_geometry_and_sync_latlon obj p a fl ets its).farm_id = obj.farm_id := by
  simp only [_apply_geometry_and_sync_latlon]
  repeat' split
  all_goals rfl

theorem upsert_lu_char (obj : Farm) (p : Payload) (now : ℤ) (thr : ℚ)
    (hav : ℚ → ℚ → ℚ → ℚ → ℚ) :
    (upsert_existing obj p now thr hav).1.last_updated =
      (match p.last_updated with
       | some t => if obj.last_updated ≤ t then t else obj.last_updated
       | none => obj.last_updated) := by
  simp only [upsert_existing]
  rw [finalize_last_updated, apply_last_updated, scalars_last_updated]

theorem upsert_lu_mono (obj : Farm) (p : Payload) (now : ℤ) (thr : ℚ)
    (hav : ℚ → ℚ → ℚ → ℚ → ℚ) :
    obj.last_updated ≤ (upsert_existing obj p now thr hav).1.last_updated := by
  rw [upsert_lu_char]
  cases p.last_updated with
  | none => exact le_refl _
  | some t =>
    dsimp only
    split_ifs with h
    · exact h
    · exact le_refl _

theorem runUpdates_mono (f : Farm) (is : List UpdIn) :
    f.last_updated ≤ (runUpdates f is).last_updated := by
  induction is generalizing f with
  | nil => simp [runUpdates]
  | cons i is ih =>
    rw [runUpdates]
    exact le_trans (upsert_lu_mono f i.payload i.now i.thr i.hav)
      (ih (upsert_existing f i.payload i.now i.thr i.hav).1)

/-- C4: the stored timestamp advances exactly to a present candidate
timestamp that is not older and is otherwise left unchanged, so along
every sequence of update calls on one record it is monotonically
non-decreasing. -/
theorem c4_last_updated_monotonic :
    (∀ (obj : Farm) (p : Payload) (now : ℤ) (thr : ℚ)
      (hav : ℚ → ℚ → ℚ → ℚ → ℚ),
      (upsert_existing obj p now thr hav).1.last_updated =
        (match p.last_updated with
         | some t => if obj.last_updated ≤ t then t else obj.last_updated
         | none => obj.last_updated)) ∧
    (∀ (f : Farm) (is : List UpdIn),
      f.last_updated ≤ (runUpdates f is).last_updated) :=
  ⟨upsert_lu_char, runUpdates_mono⟩

theorem atan2_nonneg (y x : ℝ) (hy : 0 ≤ y) (hx : 0 ≤ x) : 0 ≤ atan2 y x := by
  unfold atan2
  split_ifs with h1 h2 h3 h4 <;>
    first
      | (calc (0:ℝ) = Real.arctan 0 := Real.arctan_zero.symm
          _ ≤ Real.arctan (y / x) :=
            Real.arctan_strictMono.monotone (div_nonneg hy (le_of_lt h1)))
      | linarith [Real.pi_pos]

theorem haversine_km_self (lat lon : ℝ) : haversine_km lat lon lat lon = 0 := by
  simp [haversine_km, radians, atan2, Real.arctan_zero]

theorem haversine_km_symm (la1 lo1 la2 lo2 : ℝ) :
    haversine_km la1 lo1 la2 lo2 = haversine_km la2 lo2 la1 lo1 := by
  have h1 : Real.sin ((radians la2 - radians la1) / 2) ^ 2 =
      Real.sin ((radians la1 - radians la2) / 2) ^ 2 := by
    rw [show (radians la2 - radians la1) / 2 = -((radians la1 - radians la2) / 2) by
      ring, Real.sin_neg]
    ring
  have e2 : radians (lo2 - lo1) / 2 = -(radians (lo1 - lo2) / 2) := by
    simp only [radians]
    ring
  have h2 : Real.sin (radians (lo2 - lo1) / 2) ^ 2 =
      Real.sin (radians (lo1 - lo2) / 2) ^ 2 := by
    rw [e2, Real.sin_neg]
    ring
  have key : Real.sin ((radians la2 - radians la1) / 2) ^ 2 +
      Real.cos (radians la1) * Real.cos (radians la2) *
        Real.sin (radians (lo2 - lo1) / 2) ^ 2 =
      Real.sin ((radians la1 - radians la2) / 2) ^ 2 +
      Real.cos (radians la2) * Real.cos (radians la1) *
        Real.sin (radians (lo1 - lo2) / 2) ^ 2 := by
    rw [h1, h2]
    ring
  simp only [haversine_km]
  rw [key]

theorem haversine_km_nonneg (la1 lo1 la2 lo2 : ℝ) :
    0 ≤ haversine_km la1 lo1 la2 lo2 := by
  simp only [haversine_km]
  have h := atan2_nonneg (Real.sqrt (Real.sin ((radians la2 - radians la1) / 2) ^ 2 +
      Real.cos (radians la1) * Real.cos (radians la2) *
        Real.sin (radians (lo2 - lo1) / 2) ^ 2))
    (Real.sqrt (1 - (Real.sin ((radians la2 - radians la1) / 2) ^ 2 +
      Real.cos (radians la1) * Real.cos (radians la2) *
        Real.sin (radians (lo2 - lo1) / 2) ^ 2)))
    (Real.sqrt_nonneg _) (Real.sqrt_nonneg _)
  have hr : (0:ℝ) ≤ 6371.0088 := by norm_num
  exact mul_nonneg hr (mul_nonneg (by norm_num) h)

/-- C9: the embedded haversine distance is symmetric, zero on a pair of
identical coordinates, and non-negative everywhere. -/
theorem c9_haversine_symmetry_zero_nonneg (la1 lo1 la2 lo2 : ℝ) :
    haversine_km la1 lo1 la2 lo2 = haversine_km la2 lo2 la1 lo1 ∧
    haversine_km la1 lo1 la1 lo1 = 0 ∧
    0 ≤ haversine_km la1 lo1 la2 lo2 :=
  ⟨haversine_km_symm la1 lo1 la2 lo2, haversine_km_self la1 lo1,
    haversine_km_nonneg la1 lo1 la2 lo2⟩

theorem rep_point_eq (og : Option Geometry) :
    _rep_point og = representative_point_from_geometry og := by
  cases og <;> rfl

theorem decide_compare_char (og ng : Option Geometry) (thr : ℚ)
    (hav : ℚ → ℚ → ℚ → ℚ → ℚ) :
    _decide_geometry_compare og ng thr hav =
      (match _rep_point og, _rep_point ng with
       | some op, some np =>
         if thr < hav op.1 op.2 np.1 np.2 then
           (false, true, some (shiftReason (hav op.1 op.2 np.1 np.2) thr))
         else (true, false, none)
       | _, _ => (true, false, none)) := by
  simp only [_decide_geometry_compare]
  cases og <;> rfl

theorem decide_merge_fresh (og : Option Geometry) (g : Geometry) (thr : ℚ)
    (ets : ℤ) (its : Option ℤ) (hav : ℚ → ℚ → ℚ → ℚ → ℚ)
    (hfresh : incomingNewer ets its = true) :
    _decide_geometry_merge og (some g) thr ets its hav =
      _decide_geometry_compare og (some g) thr hav := by
  cases its with
  | none => rfl
  | some t =>
    have h : ets ≤ t := by simpa [incomingNewer] using hfresh
    simp only [_decide_geometry_merge]
    rw [if_neg (not_lt.mpr h)]

theorem decide_merge_stale (og : Option Geometry) (g : Geometry) (thr : ℚ)
    (ets t : ℤ) (hav : ℚ → ℚ → ℚ → ℚ → ℚ) (hst : t < ets) :
    _decide_geometry_merge og (some g) thr ets (some t) hav =
      (false, false, none) := by
  simp only [_decide_geometry_merge]
  rw [if_pos hst]

theorem apply_accept_geometry (obj : Farm) (p : Payload) (ets : ℤ)
    (its : Option ℤ) :
    (_apply_geometry_and_sync_latlon obj p true false ets its).geometry =
      p.geometry := by
  unfold _apply_geometry_and_sync_latlon
  rw [if_neg Bool.false_ne_true, if_pos rfl]
  dsimp only
  repeat' split
  all_goals rfl

/-- C1 counterexample: a stale candidate (timestamp 5 against an
existing record at 10) whose geometry and the existing geometry both
yield representative points, and whose shift does not exceed the
threshold, is rejected silently: the candidate geometry does not
replace the existing one even though the claim promises replacement
whenever the distance is within the threshold. -/
def geomAthird : Geometry :=
  ⟨some "Point", GVal.arr [GVal.num 19, GVal.num 41, GVal.num 99]⟩

/-- A stale candidate carrying a geometry with the same representative
point as `geomA` but a different geometry value. -/
def candStale : Payload :=
  { farm_id := "F1", farm_name := none, acreage := none,
    latitude := none, longitude := none, geometry := some geomAthird,
    source := "csv", last_updated := some 5 }

/-- The existing record for the stale-candidate scenario. -/
def farmAten : Farm :=
  { farmA with last_updated := 10 }

/-- A distance function that always answers 0 km (the source's
haversine also answers 0 on two equal representative points). -/
def havZero : ℚ → ℚ → ℚ → ℚ → ℚ := fun _ _ _ _ => 0

/-- C1 counterexample: with both representative points derivable and a
distance within the threshold, the update neither replaces the
geometry nor flags, because the candidate is stale. -/
theorem c1_stale_candidate_counterexample :
    _rep_point farmAten.geometry = some (41, 19) ∧
    _rep_point candStale.geometry = some (41, 19) ∧
    havZero 41 19 41 19 ≤ 5 ∧
    (upsert_existing farmAten candStale 20 5 havZero).1.geometry ≠
      candStale.geometry ∧
    (upsert_existing farmAten candStale 20 5 havZero).2.1 = false := by
  refine ⟨by decide, by decide, by norm_num [havZero], ?_, ?_⟩ <;>
    simp +decide only [upsert_existing, _update_scalars_if_newer,
      _decide_geometry_merge, _decide_geometry_compare, _rep_point,
      representative_point_from_geometry, pointHead, truthyStr, _is_newer,
      to_aware_utc, havZero, farmAten, farmA, candStale, geomA, geomAthird,
      _apply_geometry_and_sync_latlon, _finalize_metadata,
      _derive_latlon_from_geom]

/-- C1 amended: for every update where both representative points are
derivable and the candidate is not stale, the merge compares the
computed distance with an inclusive threshold: within it the candidate
geometry replaces the existing one without a flag, above it the call
flags with exactly the formatted reason and leaves the geometry
unchanged. -/
theorem c1_geometry_merge_threshold_amended
    (obj : Farm) (p : Payload) (now : ℤ) (thr : ℚ)
    (hav : ℚ → ℚ → ℚ → ℚ → ℚ) (g : Geometry) (op np : ℚ × ℚ)
    (hg : p.geometry = some g)
    (hop : _rep_point obj.geometry = some op)
    (hnp : _rep_point p.geometry = some np)
    (hfresh : incomingNewer obj.last_updated p.last_updated = true) :
    (hav op.1 op.2 np.1 np.2 ≤ thr →
      (upsert_existing obj p now thr hav).1.geometry = p.geometry ∧
      (upsert_existing obj p now thr hav).2.1 = false ∧
      (upsert_existing obj p now thr hav).2.2 = none) ∧
    (thr < hav op.1 op.2 np.1 np.2 →
      (upsert_existing obj p now thr hav).2.1 = true ∧
      (upsert_existing obj p now thr hav).2.2 =
        some (shiftReason (hav op.1 op.2 np.1 np.2) thr) ∧
      (upsert_existing obj p now thr hav).1.geometry = obj.geometry) := by
  have hnp' : _rep_point (some g) = some np := hg ▸ hnp
  simp only [upsert_existing, scalars_geometry, hg,
    decide_merge_fresh obj.geometry g thr obj.last_updated p.last_updated hav
      hfresh,
    decide_compare_char, hop, hnp']
  constructor
  · intro hle
    rw [if_neg (not_lt.mpr hle)]
    exact ⟨by rw [finalize_geometry, apply_accept_geometry, hg], rfl, rfl⟩
  · intro hgt
    rw [if_pos hgt]
    exact ⟨rfl, rfl, by rw [finalize_geometry, apply_flagged_eq, scalars_geometry]⟩

/-- C1 witness: a concrete non-stale update at distance 10 km with a
5 km threshold flags with the exact reason string, and the same update
with threshold 10 km accepts. -/
theorem c1_geometry_merge_threshold_witness :
    (upsert_existing farmA candB 5 5 havTen).2.1 = true ∧
    (upsert_existing farmA candB 5 5 havTen).2.2 =
      some "Geometry shift 10.00 km > 5.0 km" ∧
    (upsert_existing farmA candB 5 10 havTen).1.geometry = candB.geometry := by
  have h1 := c1_geometry_merge_threshold_amended farmA candB 5 5 havTen geomB
    (41, 19) (42, 20) (by decide) (by decide) (by decide) (by decide)
  have h2 := c1_geometry_merge_threshold_amended farmA candB 5 10 havTen geomB
    (41, 19) (42, 20) (by decide) (by decide) (by decide) (by decide)
  have hgt : (5:ℚ) < havTen 41 19 42 20 := by norm_num [havTen]
  have hle : havTen 41 19 42 20 ≤ 10 := by norm_num [havTen]
  refine ⟨(h1.2 hgt).1, ?_, (h2.1 hle).1⟩
  rw [(h1.2 hgt).2.1]
  norm_num [havTen, shiftReason, fmtFixed2, rhe, pyRepr, decScale, padDigits]
  decide

theorem rhe_intCast (n : ℤ) : rhe (n : ℚ) = n := by
  norm_num [rhe]

theorem round4q_idem (q : ℚ) : round4q (round4q q) = round4q q := by
  unfold round4q
  have h : ((rhe (q * 10000) : ℚ) / 10000) * 10000 = (rhe (q * 10000) : ℚ) := by
    field_simp
  rw [h, rhe_intCast]

/-- A candidate with an explicit latitude, no longitude and no
geometry. -/
def candLatOnly : Payload :=
  { farm_id := "F2", farm_name := none, acreage := none,
    latitude := some 5, longitude := none, geometry := none,
    source := "csv", last_updated := some 0 }

/-- C7 counterexample: on insert with no geometry and only one of the
two explicit coordinates present, the created record still takes the
present one — the claim's `only when both are present` fails. -/
theorem c7_single_coordinate_fallback_counterexample :
    candLatOnly.geometry = none ∧
    candLatOnly.longitude = none ∧
    (upsert_step none candLatOnly 0 (some 0) 5 havZero).1.latitude = some 5 ∧
    (upsert_step none candLatOnly 0 (some 0) 5 havZero).1.longitude = none := by
  refine ⟨rfl, rfl, ?_, ?_⟩ <;>
    norm_num [upsert_step, _insert_new_farm, _derive_latlon_from_geom, _rep_point,
      representative_point_from_geometry, _rounded_latlon, round4, round4q, rhe,
      to_aware_utc, candLatOnly]

/-- C7 amended: an insert never flags and carries no reason; its
coordinates are the (rounded) representative point of the candidate
geometry when one is derivable, and otherwise each explicit candidate
coordinate individually, rounded, present or not. -/
theorem c7_insert_coordinates_amended (p : Payload) (now : ℤ) (ing : Option ℤ)
    (thr : ℚ) (hav : ℚ → ℚ → ℚ → ℚ → ℚ) :
    (upsert_step none p now ing thr hav).2.1 = false ∧
    (upsert_step none p now ing thr hav).2.2 = none ∧
    (upsert_step none p now ing thr hav).1.latitude =
      (match representative_point_from_geometry p.geometry with
       | some rp => some (round4q rp.1)
       | none => round4 p.latitude) ∧
    (upsert_step none p now ing thr hav).1.longitude =
      (match representative_point_from_geometry p.geometry with
       | some rp => some (round4q rp.2)
       | none => round4 p.longitude) := by
  refine ⟨rfl, rfl, ?_, ?_⟩ <;>
  · simp only [upsert_step, _insert_new_farm, _derive_latlon_from_geom,
      rep_point_eq, _rounded_latlon]
    cases hrp : representative_point_from_geometry p.geometry with
    | none => simp
    | some rp => simp [round4, round4q_idem]

/-- A stored record carrying only explicit coordinates and no
geometry. -/
def farmLatLonOnly : Farm :=
  { farm_id := "L", farm_name := none, acreage := none,
    latitude := some 41, longitude := some 19, geometry := none,
    source := "csv", last_updated := 0 }

/-- C5: the radius query of the source derives representative points
from geometry only; a record with no geometry but perfectly usable
stored coordinates is dropped from the results even when it sits at
the query center (the fallback strategy exists in
`utils.farm_rep_point` but is never called). -/
theorem c5_radius_query_drops_latlon_only_record :
    farmLatLonOnly.geometry = none ∧
    farmLatLonOnly.latitude = some 41 ∧
    farmLatLonOnly.longitude = some 19 ∧
    farm_rep_point farmLatLonOnly "latlon" = some (41, 19) ∧
    farm_rep_point farmLatLonOnly "auto" = some (41, 19) ∧
    farms_within_radius [farmLatLonOnly] 41 19 50 havZero = [] :=
  ⟨rfl, rfl, rfl, by decide, by decide, rfl⟩

theorem decide_merge_none (og : Option Geometry) (thr : ℚ) (ets : ℤ)
    (its : Option ℤ) (hav : ℚ → ℚ → ℚ → ℚ → ℚ) :
    _decide_geometry_merge og none thr ets its hav = (false, false, none) := rfl

theorem apply_not_accept_geometry (obj : Farm) (p : Payload) (fl : Bool)
    (ets : ℤ) (its : Option ℤ) :
    (_apply_geometry_and_sync_latlon obj p false fl ets its).geometry =
      obj.geometry := by
  unfold _apply_geometry_and_sync_latlon
  cases fl
  · rw [if_neg Bool.false_ne_true, if_neg Bool.false_ne_true]
    dsimp only
    repeat' split
    all_goals rfl
  · rw [if_pos rfl]

theorem apply_nogeom_latitude (obj : Farm) (p : Payload) (ets : ℤ)
    (its : Option ℤ) (h : obj.geometry = none) :
    (_apply_geometry_and_sync_latlon obj p false false ets its).latitude =
      (if incomingNewer ets its = true then
        (match p.latitude with
         | some x => some (round4q x)
         | none => obj.latitude)
       else obj.latitude) := by
  unfold _apply_geometry_and_sync_latlon
  rw [if_neg Bool.false_ne_true, if_neg Bool.false_ne_true, h]
  simp only [incomingNewer]
  split
  · repeat' split
    all_goals rfl
  · rfl

theorem apply_nogeom_longitude (obj : Farm) (p : Payload) (ets : ℤ)
    (its : Option ℤ) (h : obj.geometry = none) :
    (_apply_geometry_and_sync_latlon obj p false false ets its).longitude =
      (if incomingNewer ets its = true then
        (match p.longitude with
         | some x => some (round4q x)
         | none => obj.longitude)
       else obj.longitude) := by
  unfold _apply_geometry_and_sync_latlon
  rw [if_neg Bool.false_ne_true, if_neg Bool.false_ne_true, h]
  simp only [incomingNewer]
  split
  · repeat' split
    all_goals rfl
  · rfl

/-- A candidate supplying only a new name, with no timestamp of its
own. -/
def candNameNoTs : Payload :=
  { farm_id := "F1", farm_name := some "New", acreage := none,
    latitude := none, longitude := none, geometry := none,
    source := "csv", last_updated := none }

/-- A stored record with explicit coordinates and no geometry. -/
def farmNoGeom : Farm :=
  { farmA with geometry := none }

/-- C6 counterexample: an existing record whose stored timestamp (10)
lies ahead of the wall clock (5) and a candidate with an absent
timestamp: the spec's gate `absent OR not older` is true and the name
is present, yet the scalar merge does not update it, because the
source replaces an absent timestamp by the clock value before
comparing. -/
theorem c6_absent_timestamp_scalar_gate_counterexample :
    truthyStr candNameNoTs.farm_name = true ∧
    incomingNewer farmAten.last_updated candNameNoTs.last_updated = true ∧
    candNameNoTs.farm_name = some "New" ∧
    (upsert_existing farmAten candNameNoTs 5 5 havZero).1.farm_name =
      some "Old" := by
  refine ⟨by decide, by decide, rfl, ?_⟩
  simp only [upsert_existing, finalize_farm_name, apply_farm_name,
    scalars_farm_name]
  decide

/-- C6 amended: geometry merge and coordinate sync are gated exactly
by `incomingNewer` (absent timestamp counts as newer); the scalar
merge replaces an absent candidate timestamp by the current clock
value before the same comparison, so its gate is
`existing ≤ to_aware_utc now candidate.last_updated` — the two gates
coincide whenever the candidate carries a timestamp, or the existing
timestamp does not lie in the clock's future.  Absent or stale
candidate values never overwrite. -/
theorem c6_merge_gates_amended (obj : Farm) (p : Payload) (now : ℤ) (thr : ℚ)
    (hav : ℚ → ℚ → ℚ → ℚ → ℚ) :
    ((upsert_existing obj p now thr hav).1.farm_name =
      (if truthyStr p.farm_name ∧
          _is_newer obj.last_updated (to_aware_utc now p.last_updated) then
        p.farm_name else obj.farm_name)) ∧
    ((upsert_existing obj p now thr hav).1.acreage =
      (if p.acreage.isSome ∧
          _is_newer obj.last_updated (to_aware_utc now p.last_updated) then
        p.acreage else obj.acreage)) ∧
    (∀ g t, p.geometry = some g → p.last_updated = some t →
      t < obj.last_updated →
      (upsert_existing obj p now thr hav).1.geometry = obj.geometry ∧
      (upsert_existing obj p now thr hav).2.1 = false ∧
      (upsert_existing obj p now thr hav).2.2 = none) ∧
    (obj.geometry = none → p.geometry = none →
      (upsert_existing obj p now thr hav).1.latitude =
        (if incomingNewer obj.last_updated p.last_updated = true then
          (match p.latitude with
           | some x => some (round4q x)
           | none => obj.latitude)
         else obj.latitude) ∧
      (upsert_existing obj p now thr hav).1.longitude =
        (if incomingNewer obj.last_updated p.last_updated = true then
          (match p.longitude with
           | some x => some (round4q x)
           | none => obj.longitude)
         else obj.longitude)) := by
  refine ⟨?_, ?_, ?_, ?_⟩
  · simp only [upsert_existing, finalize_farm_name, apply_farm_name,
      scalars_farm_name]
  · simp only [upsert_existing, finalize_acreage, apply_acreage,
      scalars_acreage]
  · intro g t hg ht hlt
    simp only [upsert_existing, scalars_geometry, hg, ht,
      decide_merge_stale obj.geometry g thr obj.last_updated t hav hlt]
    exact ⟨by rw [finalize_geometry, apply_not_accept_geometry, scalars_geometry],
      trivial, trivial⟩
  · intro hog hpg
    have hog1 : (_update_scalars_if_newer obj p obj.last_updated now).geometry =
        none := by rw [scalars_geometry, hog]
    simp only [upsert_existing, scalars_geometry, hpg, decide_merge_none,
      finalize_latitude, finalize_longitude]
    rw [apply_nogeom_latitude _ _ _ _ hog1, apply_nogeom_longitude _ _ _ _ hog1,
      scalars_latitude, scalars_longitude]
    exact ⟨rfl, rfl⟩

/-- C6 witness: the amended gate laws applied at two concrete inputs —
a stale candidate carrying geometry is silently rejected without a
flag, and a geometry-free update from a geometry-free record keeps the
stored coordinates when the candidate offers none. -/
theorem c6_merge_gates_witness :
    (upsert_existing farmAten candStale 20 5 havZero).1.geometry =
      farmAten.geometry ∧
    (upsert_existing farmAten candStale 20 5 havZero).2.1 = false ∧
    (upsert_existing farmNoGeom candNameNoTs 5 5 havZero).1.latitude =
      some 41 := by
  have h1 := (c6_merge_gates_amended farmAten candStale 20 5 havZero).2.2.1
    geomAthird 5 rfl rfl (by decide)
  have h2 := (c6_merge_gates_amended farmNoGeom candNameNoTs 5 5 havZero).2.2.2
    rfl rfl
  refine ⟨h1.1, h1.2.1, ?_⟩
  rw [h2.1]
  decide

theorem insert_geometry (p : Payload) (ing : ℤ) :
    (_insert_new_farm p ing).geometry = p.geometry := rfl

theorem insert_farm_name (p : Payload) (ing : ℤ) :
    (_insert_new_farm p ing).farm_name = p.farm_name := rfl

theorem insert_acreage (p : Payload) (ing : ℤ) :
    (_insert_new_farm p ing).acreage = p.acreage := rfl

theorem insert_source (p : Payload) (ing : ℤ) :
    (_insert_new_farm p ing).source = p.source := rfl

theorem insert_farm_id (p : Payload) (ing : ℤ) :
    (_insert_new_farm p ing).farm_id = p.farm_id := rfl

theorem insert_lu (p : Payload) (ing t : ℤ) (ht : p.last_updated = some t) :
    (_insert_new_farm p ing).last_updated = t := by
  simp [_insert_new_farm, ht]

theorem insert_latitude_char (p : Payload) (ing : ℤ) :
    (_insert_new_farm p ing).latitude =
      (match representative_point_from_geometry p.geometry with
       | some rp => some (round4q rp.1)
       | none => round4 p.latitude) := by
  simp only [_insert_new_farm, _derive_latlon_from_geom, rep_point_eq,
    _rounded_latlon]
  cases representative_point_from_geometry p.geometry with
  | none => simp
  | some rp => simp [round4, round4q_idem]

theorem insert_longitude_char (p : Payload) (ing : ℤ) :
    (_insert_new_farm p ing).longitude =
      (match representative_point_from_geometry p.geometry with
       | some rp => some (round4q rp.2)
       | none => round4 p.longitude) := by
  simp only [_insert_new_farm, _derive_latlon_from_geom, rep_point_eq,
    _rounded_latlon]
  cases representative_point_from_geometry p.geometry with
  | none => simp
  | some rp => simp [round4, round4q_idem]

theorem apply_accept_latitude (obj : Farm) (p : Payload) (ets : ℤ)
    (its : Option ℤ) :
    (_apply_geometry_and_sync_latlon obj p true false ets its).latitude =
      (match representative_point_from_geometry p.geometry with
       | some rp => some (round4q rp.1)
       | none => obj.latitude) := by
  unfold _apply_geometry_and_sync_latlon
  rw [if_neg Bool.false_ne_true, if_pos rfl]
  dsimp only
  simp only [_derive_latlon_from_geom, rep_point_eq]
  cases representative_point_from_geometry p.geometry <;> rfl

theorem apply_accept_longitude (obj : Farm) (p : Payload) (ets : ℤ)
    (its : Option ℤ) :
    (_apply_geometry_and_sync_latlon obj p true false ets its).longitude =
      (match representative_point_from_geometry p.geometry with
       | some rp => some (round4q rp.2)
       | none => obj.longitude) := by
  unfold _apply_geometry_and_sync_latlon
  rw [if_neg Bool.false_ne_true, if_pos rfl]
  dsimp only
  simp only [_derive_latlon_from_geom, rep_point_eq]
  cases representative_point_from_geometry p.geometry <;> rfl

theorem apply_rederive_latitude (obj : Farm) (p : Payload) (g0 : Geometry)
    (ets : ℤ) (its : Option ℤ) (h : obj.geometry = some g0) :
    (_apply_geometry_and_sync_latlon obj p false false ets its).latitude =
      (match representative_point_from_geometry (some g0) with
       | some rp => some (round4q rp.1)
       | none => obj.latitude) := by
  unfold _apply_geometry_and_sync_latlon
  rw [if_neg Bool.false_ne_true, if_neg Bool.false_ne_true, h]
  dsimp only
  simp only [_derive_latlon_from_geom, rep_point_eq, h]
  cases representative_point_from_geometry (some g0) <;> rfl

theorem apply_rederive_longitude (obj : Farm) (p : Payload) (g0 : Geometry)
    (ets : ℤ) (its : Option ℤ) (h : obj.geometry = some g0) :
    (_apply_geometry_and_sync_latlon obj p false false ets its).longitude =
      (match representative_point_from_geometry (some g0) with
       | some rp => some (round4q rp.2)
       | none => obj.longitude) := by
  unfold _apply_geometry_and_sync_latlon
  rw [if_neg Bool.false_ne_true, if_neg Bool.false_ne_true, h]
  dsimp only
  simp only [_derive_latlon_from_geom, rep_point_eq, h]
  cases representative_point_from_geometry (some g0) <;> rfl

theorem upsert_farm_name_char (obj : Farm) (p : Payload) (now : ℤ) (thr : ℚ)
    (hav : ℚ → ℚ → ℚ → ℚ → ℚ) :
    (upsert_existing obj p now thr hav).1.farm_name =
      (if truthyStr p.farm_name ∧
          _is_newer obj.last_updated (to_aware_utc now p.last_updated) then
        p.farm_name else obj.farm_name) := by
  simp only [upsert_existing, finalize_farm_name, apply_farm_name,
    scalars_farm_name]

theorem upsert_acreage_char (obj : Farm) (p : Payload) (now : ℤ) (thr : ℚ)
    (hav : ℚ → ℚ → ℚ → ℚ → ℚ) :
    (upsert_existing obj p now thr hav).1.acreage =
      (if p.acreage.isSome ∧
          _is_newer obj.last_updated (to_aware_utc now p.last_updated) then
        p.acreage else obj.acreage) := by
  simp only [upsert_existing, finalize_acreage, apply_acreage, scalars_acreage]

theorem upsert_source_char (obj : Farm) (p : Payload) (now : ℤ) (thr : ℚ)
    (hav : ℚ → ℚ → ℚ → ℚ → ℚ) :
    (upsert_existing obj p now thr hav).1.source =
      (if p.source ≠ "" then p.source else obj.source) := by
  simp only [upsert_existing, finalize_source, apply_source, scalars_source]

theorem upsert_farm_id_char (obj : Farm) (p : Payload) (now : ℤ) (thr : ℚ)
    (hav : ℚ → ℚ → ℚ → ℚ → ℚ) :
    (upsert_existing obj p now thr hav).1.farm_id = obj.farm_id := by
  simp only [upsert_existing, finalize_farm_id, apply_farm_id, scalars_farm_id]

theorem insert_syncOK (p : Payload) (ing : ℤ) : syncOK (_insert_new_farm p ing) := by
  intro g np hg hnp
  rw [insert_geometry] at hg
  rw [insert_latitude_char, insert_longitude_char, hg, hnp]
  exact ⟨rfl, rfl⟩

theorem apply_syncOK (obj : Farm) (p : Payload) (acc fl : Bool) (ets : ℤ)
    (its : Option ℤ) (hs : syncOK obj) :
    syncOK (_apply_geometry_and_sync_latlon obj p acc fl ets its) := by
  cases fl
  case true =>
    rw [apply_flagged_eq]
    exact hs
  case false =>
    cases acc
    case true =>
      intro g np hg hnp
      rw [apply_accept_geometry] at hg
      rw [apply_accept_latitude, apply_accept_longitude, hg, hnp]
      exact ⟨rfl, rfl⟩
    case false =>
      intro g np hg hnp
      rw [apply_not_accept_geometry] at hg
      rw [apply_rederive_latitude obj p g ets its hg,
        apply_rederive_longitude obj p g ets its hg, hnp]
      exact ⟨rfl, rfl⟩

theorem upsert_preserves_syncOK (obj : Farm) (p : Payload) (now : ℤ) (thr : ℚ)
    (hav : ℚ → ℚ → ℚ → ℚ → ℚ) (hs : syncOK obj) :
    syncOK (upsert_existing obj p now thr hav).1 := by
  have hs1 : syncOK (_update_scalars_if_newer obj p obj.last_updated now) := by
    intro g np hg hnp
    rw [scalars_geometry] at hg
    rw [scalars_latitude, scalars_longitude]
    exact hs g np hg hnp
  intro g np hg hnp
  simp only [upsert_existing] at hg ⊢
  rw [finalize_geometry] at hg
  rw [finalize_latitude, finalize_longitude]
  exact apply_syncOK _ p _ _ _ _ hs1 g np hg hnp

/-- An unreducible geometry: a tagged dictionary whose coordinates
yield no numeric vertex. -/
def geomBad : Geometry := ⟨some "Polygon", GVal.other⟩

/-- A candidate with an unreducible geometry and explicit
coordinates. -/
def candBadGeom : Payload :=
  { farm_id := "F3", farm_name := none, acreage := none,
    latitude := some 5, longitude := some 6, geometry := some geomBad,
    source := "csv", last_updated := some 0 }

/-- C3 counterexample: inserting a candidate with an unreducible
geometry and explicit coordinates leaves a record whose geometry is
non-null while its stored coordinates are not the (absent) rounded
representative point of that geometry — the unguarded invariant
fails. -/
theorem c3_unreducible_geometry_counterexample :
    (upsert_step none candBadGeom 0 none 5 havZero).1.geometry =
      some geomBad ∧
    representative_point_from_geometry (some geomBad) = none ∧
    (upsert_step none candBadGeom 0 none 5 havZero).1.latitude = some 5 ∧
    ((upsert_step none candBadGeom 0 none 5 havZero).1.latitude,
      (upsert_step none candBadGeom 0 none 5 havZero).1.longitude) ≠
      specSyncedCoords (upsert_step none candBadGeom 0 none 5 havZero).1.geometry := by
  have hlat : (upsert_step none candBadGeom 0 none 5 havZero).1.latitude =
      some 5 := by
    norm_num [upsert_step, _insert_new_farm, _derive_latlon_from_geom,
      _rep_point, representative_point_from_geometry, flatten_coords,
      _rounded_latlon, round4, round4q, rhe, to_aware_utc, candBadGeom, geomBad]
  refine ⟨rfl, by decide, hlat, ?_⟩
  rw [hlat]
  have hg : (upsert_step none candBadGeom 0 none 5 havZero).1.geometry =
      some geomBad := rfl
  rw [hg]
  simp [specSyncedCoords, representative_point_from_geometry, geomBad,
    flatten_coords]

/-- C3 amended: the geometry-coordinate invariant holds in its guarded
form — whenever the stored geometry yields a representative point, the
stored coordinates equal that point rounded to 4 decimals; it is
established by every insert and preserved by every update. -/
theorem c3_geometry_latlon_sync_amended :
    (∀ (p : Payload) (ing : ℤ), syncOK (_insert_new_farm p ing)) ∧
    (∀ (obj : Farm) (p : Payload) (now : ℤ) (thr : ℚ)
      (hav : ℚ → ℚ → ℚ → ℚ → ℚ),
      syncOK obj → syncOK (upsert_existing obj p now thr hav).1) :=
  ⟨insert_syncOK, upsert_preserves_syncOK⟩

/-- C3 witness: the guarded invariant applied to a concrete accepted
geometry update — the resulting coordinates are the representative
point of the new geometry. -/
theorem c3_geometry_latlon_sync_witness :
    (upsert_existing farmA candB 5 10 havTen).1.geometry = some geomB ∧
    (upsert_existing farmA candB 5 10 havTen).1.latitude = some 42 ∧
    (upsert_existing farmA candB 5 10 havTen).1.longitude = some 20 := by
  have hsA : syncOK farmA := by
    intro g np hg hnp
    simp only [farmA] at hg
    injection hg with hg'
    subst hg'
    rw [show representative_point_from_geometry (some geomA) = some (41, 19)
      from by decide] at hnp
    injection hnp with hnp'
    subst hnp'
    constructor <;> norm_num [farmA, round4q, rhe]
  have hg : (upsert_existing farmA candB 5 10 havTen).1.geometry =
      some geomB := by
    simp +decide only [upsert_existing, _update_scalars_if_newer,
      _decide_geometry_merge, _decide_geometry_compare, _rep_point,
      representative_point_from_geometry, pointHead, truthyStr, _is_newer,
      to_aware_utc, havTen, farmA, candB, geomA, geomB,
      _apply_geometry_and_sync_latlon, _finalize_metadata,
      _derive_latlon_from_geom]
  have h := (c3_geometry_latlon_sync_amended.2 farmA candB 5 10 havTen hsA)
    geomB (42, 20) hg (by decide)
  refine ⟨hg, ?_, ?_⟩
  · rw [h.1]
    norm_num [round4q, rhe]
  · rw [h.2]
    norm_num [round4q, rhe]

/-- C10: a flagged update is not a no-op — the scalar merge, the
source overwrite and the timestamp advance all still apply exactly as
in an unflagged update. -/
theorem c10_flagged_update_still_merges_scalars
    (obj : Farm) (p : Payload) (now : ℤ) (thr : ℚ)
    (hav : ℚ → ℚ → ℚ → ℚ → ℚ)
    (_flagged : (upsert_existing obj p now thr hav).2.1 = true) :
    (upsert_existing obj p now thr hav).1.farm_name =
      (if truthyStr p.farm_name ∧
          _is_newer obj.last_updated (to_aware_utc now p.last_updated) then
        p.farm_name else obj.farm_name) ∧
    (upsert_existing obj p now thr hav).1.acreage =
      (if p.acreage.isSome ∧
          _is_newer obj.last_updated (to_aware_utc now p.last_updated) then
        p.acreage else obj.acreage) ∧
    (upsert_existing obj p now thr hav).1.source =
      (if p.source ≠ "" then p.source else obj.source) ∧
    (upsert_existing obj p now thr hav).1.last_updated =
      (match p.last_updated with
       | some t => if obj.last_updated ≤ t then t else obj.last_updated
       | none => obj.last_updated) :=
  ⟨upsert_farm_name_char obj p now thr hav, upsert_acreage_char obj p now thr hav,
    upsert_source_char obj p now thr hav, upsert_lu_char obj p now thr hav⟩

/-- C10 witness: in the concrete flagged run, the name, acreage,
source and timestamp all advance to the candidate's values. -/
theorem c10_flagged_update_still_merges_scalars_witness :
    (upsert_existing farmA candB 5 5 havTen).2.1 = true ∧
    (upsert_existing farmA candB 5 5 havTen).1.farm_name = some "New" ∧
    (upsert_existing farmA candB 5 5 havTen).1.acreage = some 20 ∧
    (upsert_existing farmA candB 5 5 havTen).1.source = "geojson" ∧
    (upsert_existing farmA candB 5 5 havTen).1.last_updated = 1 := by
  have hf : (upsert_existing farmA candB 5 5 havTen).2.1 = true := by
    simp +decide only [upsert_existing, _update_scalars_if_newer,
      _decide_geometry_merge, _decide_geometry_compare, _rep_point,
      representative_point_from_geometry, pointHead, truthyStr, _is_newer,
      to_aware_utc, havTen, farmA, candB, geomA, geomB]
  have h := c10_flagged_update_still_merges_scalars farmA candB 5 5 havTen hf
  refine ⟨hf, ?_, ?_, ?_, ?_⟩
  · rw [h.1]
    decide
  · rw [h.2.1]
    decide
  · rw [h.2.2.1]
    decide
  · rw [h.2.2.2]
    decide

theorem farm_eq_of_fields (a b : Farm)
    (h1 : a.farm_id = b.farm_id) (h2 : a.farm_name = b.farm_name)
    (h3 : a.acreage = b.acreage) (h4 : a.latitude = b.latitude)
    (h5 : a.longitude = b.longitude) (h6 : a.geometry = b.geometry)
    (h7 : a.source = b.source) (h8 : a.last_updated = b.last_updated) :
    a = b := by
  cases a
  cases b
  simp_all

theorem compare_new_none (og ng : Option Geometry) (thr : ℚ)
    (hav : ℚ → ℚ → ℚ → ℚ → ℚ) (hnp : _rep_point ng = none) :
    _decide_geometry_compare og ng thr hav = (true, false, none) := by
  rw [decide_compare_char, hnp]
  cases _rep_point og <;> rfl

theorem compare_old_none (og ng : Option Geometry) (thr : ℚ)
    (hav : ℚ → ℚ → ℚ → ℚ → ℚ) (hop : _rep_point og = none) :
    _decide_geometry_compare og ng thr hav = (true, false, none) := by
  rw [decide_compare_char, hop]

theorem compare_both (og ng : Option Geometry) (thr : ℚ)
    (hav : ℚ → ℚ → ℚ → ℚ → ℚ) (op np : ℚ × ℚ)
    (hop : _rep_point og = some op) (hnp : _rep_point ng = some np) :
    _decide_geometry_compare og ng thr hav =
      (if thr < hav op.1 op.2 np.1 np.2 then
        (false, true, some (shiftReason (hav op.1 op.2 np.1 np.2) thr))
       else (true, false, none)) := by
  rw [decide_compare_char, hop, hnp]

theorem upsert_norep_geometry (obj : Farm) (p : Payload) (now : ℤ) (thr : ℚ)
    (hav : ℚ → ℚ → ℚ → ℚ → ℚ)
    (hdec : _decide_geometry_merge obj.geometry p.geometry thr
      obj.last_updated p.last_updated hav = (false, false, none)) :
    (upsert_existing obj p now thr hav).1.geometry = obj.geometry := by
  simp only [upsert_existing, scalars_geometry, scalars_last_updated, hdec,
    finalize_geometry]
  rw [apply_not_accept_geometry, scalars_geometry]

theorem upsert_norep_latitude_geom (obj : Farm) (p : Payload) (now : ℤ)
    (thr : ℚ) (hav : ℚ → ℚ → ℚ → ℚ → ℚ) (g0 : Geometry)
    (hog : obj.geometry = some g0)
    (hdec : _decide_geometry_merge obj.geometry p.geometry thr
      obj.last_updated p.last_updated hav = (false, false, none)) :
    (upsert_existing obj p now thr hav).1.latitude =
      (match representative_point_from_geometry (some g0) with
       | some rp => some (round4q rp.1)
       | none => obj.latitude) := by
  simp only [upsert_existing, scalars_geometry, scalars_last_updated, hdec,
    finalize_latitude]
  rw [apply_rederive_latitude _ _ g0 _ _ (by rw [scalars_geometry, hog]),
    scalars_latitude]

theorem upsert_norep_longitude_geom (obj : Farm) (p : Payload) (now : ℤ)
    (thr : ℚ) (hav : ℚ → ℚ → ℚ → ℚ → ℚ) (g0 : Geometry)
    (hog : obj.geometry = some g0)
    (hdec : _decide_geometry_merge obj.geometry p.geometry thr
      obj.last_updated p.last_updated hav = (false, false, none)) :
    (upsert_existing obj p now thr hav).1.longitude =
      (match representative_point_from_geometry (some g0) with
       | some rp => some (round4q rp.2)
       | none => obj.longitude) := by
  simp only [upsert_existing, scalars_geometry, scalars_last_updated, hdec,
    finalize_longitude]
  rw [apply_rederive_longitude _ _ g0 _ _ (by rw [scalars_geometry, hog]),
    scalars_longitude]

theorem upsert_norep_latitude_nogeom (obj : Farm) (p : Payload) (now : ℤ)
    (thr : ℚ) (hav : ℚ → ℚ → ℚ → ℚ → ℚ)
    (hog : obj.geometry = none)
    (hdec : _decide_geometry_merge obj.geometry p.geometry thr
      obj.last_updated p.last_updated hav = (false, false, none)) :
    (upsert_existing obj p now thr hav).1.latitude =
      (if incomingNewer obj.last_updated p.last_updated = true then
        (match p.latitude with
         | some x => some (round4q x)
         | none => obj.latitude)
       else obj.latitude) := by
  simp only [upsert_existing, scalars_geometry, scalars_last_updated, hdec,
    finalize_latitude]
  rw [apply_nogeom_latitude _ _ _ _ (by rw [scalars_geometry, hog]),
    scalars_latitude]

theorem upsert_norep_longitude_nogeom (obj : Farm) (p : Payload) (now : ℤ)
    (thr : ℚ) (hav : ℚ → ℚ → ℚ → ℚ → ℚ)
    (hog : obj.geometry = none)
    (hdec : _decide_geometry_merge obj.geometry p.geometry thr
      obj.last_updated p.last_updated hav = (false, false, none)) :
    (upsert_existing obj p now thr hav).1.longitude =
      (if incomingNewer obj.last_updated p.last_updated = true then
        (match p.longitude with
         | some x => some (round4q x)
         | none => obj.longitude)
       else obj.longitude) := by
  simp only [upsert_existing, scalars_geometry, scalars_last_updated, hdec,
    finalize_longitude]
  rw [apply_nogeom_longitude _ _ _ _ (by rw [scalars_geometry, hog]),
    scalars_longitude]

theorem upsert_accept2_geometry (obj : Farm) (p : Payload) (now : ℤ)
    (thr : ℚ) (hav : ℚ → ℚ → ℚ → ℚ → ℚ)
    (hdec : _decide_geometry_merge obj.geometry p.geometry thr
      obj.last_updated p.last_updated hav = (true, false, none)) :
    (upsert_existing obj p now thr hav).1.geometry = p.geometry := by
  simp only [upsert_existing, scalars_geometry, scalars_last_updated, hdec,
    finalize_geometry]
  rw [apply_accept_geometry]

theorem upsert_accept2_latitude (obj : Farm) (p : Payload) (now : ℤ)
    (thr : ℚ) (hav : ℚ → ℚ → ℚ → ℚ → ℚ)
    (hdec : _decide_geometry_merge obj.geometry p.geometry thr
      obj.last_updated p.last_updated hav = (true, false, none)) :
    (upsert_existing obj p now thr hav).1.latitude =
      (match representative_point_from_geometry p.geometry with
       | some rp => some (round4q rp.1)
       | none => obj.latitude) := by
  simp only [upsert_existing, scalars_geometry, scalars_last_updated, hdec,
    finalize_latitude]
  rw [apply_accept_latitude, scalars_latitude]

theorem upsert_accept2_longitude (obj : Farm) (p : Payload) (now : ℤ)
    (thr : ℚ) (hav : ℚ → ℚ → ℚ → ℚ → ℚ)
    (hdec : _decide_geometry_merge obj.geometry p.geometry thr
      obj.last_updated p.last_updated hav = (true, false, none)) :
    (upsert_existing obj p now thr hav).1.longitude =
      (match representative_point_from_geometry p.geometry with
       | some rp => some (round4q rp.2)
       | none => obj.longitude) := by
  simp only [upsert_existing, scalars_geometry, scalars_last_updated, hdec,
    finalize_longitude]
  rw [apply_accept_longitude, scalars_longitude]

theorem upsert_flagged_triple (obj : Farm) (p : Payload) (now : ℤ)
    (thr : ℚ) (hav : ℚ → ℚ → ℚ → ℚ → ℚ)
    (hfl : (_decide_geometry_merge obj.geometry p.geometry thr
      obj.last_updated p.last_updated hav).2.1 = true) :
    (upsert_existing obj p now thr hav).1.geometry = obj.geometry ∧
    (upsert_existing obj p now thr hav).1.latitude = obj.latitude ∧
    (upsert_existing obj p now thr hav).1.longitude = obj.longitude := by
  simp only [upsert_existing, scalars_geometry, scalars_last_updated,
    finalize_geometry, finalize_latitude, finalize_longitude]
  rw [hfl, apply_flagged_eq, scalars_geometry, scalars_latitude,
    scalars_longitude]
  exact ⟨rfl, rfl, rfl⟩

theorem second_call_fix (f1 : Farm) (p : Payload) (t now2 : ℤ) (thr : ℚ)
    (hav : ℚ → ℚ → ℚ → ℚ → ℚ)
    (ht : p.last_updated = some t)
    (hself : ∀ x y : ℚ, hav x y x y ≤ thr)
    (H1 : f1.last_updated ≤ t → f1.last_updated = t)
    (H2 : truthyStr p.farm_name = true → f1.last_updated ≤ t →
      f1.farm_name = p.farm_name)
    (H3 : p.acreage.isSome = true → f1.last_updated ≤ t →
      f1.acreage = p.acreage)
    (H4 : p.source ≠ "" → f1.source = p.source)
    (H5 : ∀ g0 rp, f1.geometry = some g0 →
      representative_point_from_geometry (some g0) = some rp →
      (t < f1.last_updated ∨ p.geometry = none ∨ p.geometry = some g0) →
      f1.latitude = some (round4q rp.1) ∧ f1.longitude = some (round4q rp.2))
    (H6 : f1.geometry = none → p.geometry = none → f1.last_updated ≤ t →
      (∀ x, p.latitude = some x → f1.latitude = some (round4q x)) ∧
      (∀ x, p.longitude = some x → f1.longitude = some (round4q x)))
    (H7 : ∀ g np, p.geometry = some g →
      representative_point_from_geometry (some g) = some np →
      f1.last_updated ≤ t →
      f1.geometry = some g ∨
      (∃ op, _rep_point f1.geometry = some op ∧
        thr < hav op.1 op.2 np.1 np.2))
    (H8 : ∀ g, p.geometry = some g →
      representative_point_from_geometry (some g) = none →
      f1.last_updated ≤ t → f1.geometry = some g) :
    (upsert_existing f1 p now2 thr hav).1 = f1 := by
  have hname : (upsert_existing f1 p now2 thr hav).1.farm_name =
      f1.farm_name := by
    rw [upsert_farm_name_char, ht]
    simp only [to_aware_utc, _is_newer, decide_eq_true_eq]
    split_ifs with hc
    · exact (H2 hc.1 hc.2).symm
    · rfl
  have hacr : (upsert_existing f1 p now2 thr hav).1.acreage = f1.acreage := by
    rw [upsert_acreage_char, ht]
    simp only [to_aware_utc, _is_newer, decide_eq_true_eq]
    split_ifs with hc
    · exact (H3 hc.1 hc.2).symm
    · rfl
  have hsrc : (upsert_existing f1 p now2 thr hav).1.source = f1.source := by
    rw [upsert_source_char]
    split_ifs with hc
    · exact (H4 hc).symm
    · rfl
  have hlu : (upsert_existing f1 p now2 thr hav).1.last_updated =
      f1.last_updated := by
    rw [upsert_lu_char, ht]
    dsimp only
    split_ifs with hc
    · exact (H1 hc).symm
    · rfl
  have htrip : (upsert_existing f1 p now2 thr hav).1.geometry = f1.geometry ∧
      (upsert_existing f1 p now2 thr hav).1.latitude = f1.latitude ∧
      (upsert_existing f1 p now2 thr hav).1.longitude = f1.longitude := by
    by_cases hst : t < f1.last_updated
    · have hdec : _decide_geometry_merge f1.geometry p.geometry thr
          f1.last_updated p.last_updated hav = (false, false, none) := by
        cases hpg : p.geometry with
        | none => exact decide_merge_none _ _ _ _ _
        | some g =>
          rw [ht]
          exact decide_merge_stale _ g thr _ t hav hst
      cases hf1g : f1.geometry with
      | some g0 =>
        refine ⟨by rw [upsert_norep_geometry _ _ _ _ _ hdec, hf1g], ?_, ?_⟩
        · rw [upsert_norep_latitude_geom _ _ _ _ _ g0 hf1g hdec]
          cases hrp : representative_point_from_geometry (some g0) with
          | none => rfl
          | some rp => exact ((H5 g0 rp hf1g hrp (Or.inl hst)).1).symm
        · rw [upsert_norep_longitude_geom _ _ _ _ _ g0 hf1g hdec]
          cases hrp : representative_point_from_geometry (some g0) with
          | none => rfl
          | some rp => exact ((H5 g0 rp hf1g hrp (Or.inl hst)).2).symm
      | none =>
        have hin : incomingNewer f1.last_updated (some t) = false := by
          simp only [incomingNewer, decide_eq_false_iff_not]
          exact not_le.mpr hst
        refine ⟨by rw [upsert_norep_geometry _ _ _ _ _ hdec, hf1g], ?_, ?_⟩
        · rw [upsert_norep_latitude_nogeom _ _ _ _ _ hf1g hdec, ht, hin]
          simp
        · rw [upsert_norep_longitude_nogeom _ _ _ _ _ hf1g hdec, ht, hin]
          simp
    · have hfr : f1.last_updated ≤ t := not_lt.mp hst
      have hin : incomingNewer f1.last_updated (some t) = true := by
        simp only [incomingNewer, decide_eq_true_eq]
        exact hfr
      cases hpg : p.geometry with
      | none =>
        have hdec : _decide_geometry_merge f1.geometry p.geometry thr
            f1.last_updated p.last_updated hav = (false, false, none) := by
          rw [hpg]
          exact decide_merge_none _ _ _ _ _
        cases hf1g : f1.geometry with
        | some g0 =>
          refine ⟨by rw [upsert_norep_geometry _ _ _ _ _ hdec, hf1g], ?_, ?_⟩
          · rw [upsert_norep_latitude_geom _ _ _ _ _ g0 hf1g hdec]
            cases hrp : representative_point_from_geometry (some g0) with
            | none => rfl
            | some rp =>
              exact ((H5 g0 rp hf1g hrp (Or.inr (Or.inl hpg))).1).symm
          · rw [upsert_norep_longitude_geom _ _ _ _ _ g0 hf1g hdec]
            cases hrp : representative_point_from_geometry (some g0) with
            | none => rfl
            | some rp =>
              exact ((H5 g0 rp hf1g hrp (Or.inr (Or.inl hpg))).2).symm
        | none =>
          refine ⟨by rw [upsert_norep_geometry _ _ _ _ _ hdec, hf1g], ?_, ?_⟩
          · rw [upsert_norep_latitude_nogeom _ _ _ _ _ hf1g hdec, ht, hin]
            cases hx : p.latitude with
            | some x =>
              simp only [if_pos rfl]
              exact (((H6 hf1g hpg hfr).1) x hx).symm
            | none => simp
          · rw [upsert_norep_longitude_nogeom _ _ _ _ _ hf1g hdec, ht, hin]
            cases hx : p.longitude with
            | some x =>
              simp only [if_pos rfl]
              exact (((H6 hf1g hpg hfr).2) x hx).symm
            | none => simp
      | some g =>
        cases hnp : representative_point_from_geometry (some g) with
        | none =>
          have hg1 : f1.geometry = some g := H8 g hpg hnp hfr
          have hdec : _decide_geometry_merge f1.geometry p.geometry thr
              f1.last_updated p.last_updated hav = (true, false, none) := by
            rw [hpg, ht, decide_merge_fresh _ _ _ _ _ _ hin]
            exact compare_new_none _ _ _ _ hnp
          refine ⟨?_, ?_, ?_⟩
          · rw [upsert_accept2_geometry _ _ _ _ _ hdec, hpg, hg1]
          · rw [upsert_accept2_latitude _ _ _ _ _ hdec, hpg, hnp]
          · rw [upsert_accept2_longitude _ _ _ _ _ hdec, hpg, hnp]
        | some np =>
          rcases H7 g np hpg hnp hfr with hg1 | ⟨op, hop, hd⟩
          · have hop1 : _rep_point f1.geometry = some np := by
              rw [hg1]
              exact hnp
            have hdec : _decide_geometry_merge f1.geometry p.geometry thr
                f1.last_updated p.last_updated hav = (true, false, none) := by
              rw [hpg, ht, decide_merge_fresh _ _ _ _ _ _ hin,
                compare_both f1.geometry (some g) thr hav np np hop1 hnp,
                if_neg (not_lt.mpr (hself np.1 np.2))]
            refine ⟨?_, ?_, ?_⟩
            · rw [upsert_accept2_geometry _ _ _ _ _ hdec, hpg, hg1]
            · rw [upsert_accept2_latitude _ _ _ _ _ hdec, hpg, hnp]
              exact ((H5 g np hg1 hnp (Or.inr (Or.inr hpg))).1).symm
            · rw [upsert_accept2_longitude _ _ _ _ _ hdec, hpg, hnp]
              exact ((H5 g np hg1 hnp (Or.inr (Or.inr hpg))).2).symm
          · have hfl : (_decide_geometry_merge f1.geometry p.geometry thr
                f1.last_updated p.last_updated hav).2.1 = true := by
              rw [hpg, ht, decide_merge_fresh _ _ _ _ _ _ hin,
                compare_both f1.geometry (some g) thr hav op np hop hnp,
                if_pos hd]
            exact upsert_flagged_triple _ _ _ _ _ hfl
  exact farm_eq_of_fields _ _ (upsert_farm_id_char _ _ _ _ _) hname hacr
    htrip.2.1 htrip.2.2 htrip.1 hsrc hlu

theorem update_second_fix (s0 : Farm) (p : Payload) (t now1 now2 : ℤ)
    (thr : ℚ) (hav : ℚ → ℚ → ℚ → ℚ → ℚ)
    (ht : p.last_updated = some t)
    (hself : ∀ x y : ℚ, hav x y x y ≤ thr) :
    (upsert_existing (upsert_existing s0 p now1 thr hav).1 p now2 thr hav).1 =
      (upsert_existing s0 p now1 thr hav).1 := by
  have hlu1 : (upsert_existing s0 p now1 thr hav).1.last_updated =
      if s0.last_updated ≤ t then t else s0.last_updated := by
    rw [upsert_lu_char, ht]
  have hkey : (upsert_existing s0 p now1 thr hav).1.last_updated ≤ t →
      s0.last_updated ≤ t := by
    intro hle
    by_contra hns
    rw [hlu1, if_neg hns] at hle
    exact hns hle
  refine second_call_fix _ p t now2 thr hav ht hself ?_ ?_ ?_ ?_ ?_ ?_ ?_ ?_
  · intro hle
    rw [hlu1, if_pos (hkey hle)]
  · intro htr hle
    rw [upsert_farm_name_char, ht]
    have hn : _is_newer s0.last_updated (to_aware_utc now1 (some t)) = true := by
      simp only [to_aware_utc, _is_newer, decide_eq_true_eq]
      exact hkey hle
    rw [if_pos ⟨htr, hn⟩]
  · intro hac hle
    rw [upsert_acreage_char, ht]
    have hn : _is_newer s0.last_updated (to_aware_utc now1 (some t)) = true := by
      simp only [to_aware_utc, _is_newer, decide_eq_true_eq]
      exact hkey hle
    rw [if_pos ⟨hac, hn⟩]
  · intro hs
    rw [upsert_source_char, if_pos hs]
  · intro g0 rp hg hrp hguard
    rcases hguard with hst2 | hpgn | hpgg
    · have hns : ¬s0.last_updated ≤ t := by
        intro hle0
        rw [hlu1, if_pos hle0] at hst2
        exact absurd hst2 (lt_irrefl t)
      have hstale : t < s0.last_updated := not_le.mp hns
      have hdec1 : _decide_geometry_merge s0.geometry p.geometry thr
          s0.last_updated p.last_updated hav = (false, false, none) := by
        cases hpg : p.geometry with
        | none => exact decide_merge_none _ _ _ _ _
        | some gg =>
          rw [ht]
          exact decide_merge_stale _ gg thr _ t hav hstale
      have hs0g : s0.geometry = some g0 := by
        rw [upsert_norep_geometry _ _ _ _ _ hdec1] at hg
        exact hg
      constructor
      · rw [upsert_norep_latitude_geom _ _ _ _ _ g0 hs0g hdec1, hrp]
      · rw [upsert_norep_longitude_geom _ _ _ _ _ g0 hs0g hdec1, hrp]
    · have hdec1 : _decide_geometry_merge s0.geometry p.geometry thr
          s0.last_updated p.last_updated hav = (false, false, none) := by
        rw [hpgn]
        exact decide_merge_none _ _ _ _ _
      have hs0g : s0.geometry = some g0 := by
        rw [upsert_norep_geometry _ _ _ _ _ hdec1] at hg
        exact hg
      constructor
      · rw [upsert_norep_latitude_geom _ _ _ _ _ g0 hs0g hdec1, hrp]
      · rw [upsert_norep_longitude_geom _ _ _ _ _ g0 hs0g hdec1, hrp]
    · by_cases hs0le : s0.last_updated ≤ t
      · have hinn : incomingNewer s0.last_updated (some t) = true := by
          simp only [incomingNewer, decide_eq_true_eq]
          exact hs0le
        cases hop : _rep_point s0.geometry with
        | none =>
          have hdec1 : _decide_geometry_merge s0.geometry p.geometry thr
              s0.last_updated p.last_updated hav = (true, false, none) := by
            rw [hpgg, ht, decide_merge_fresh _ _ _ _ _ _ hinn]
            exact compare_old_none _ _ _ _ hop
          constructor
          · rw [upsert_accept2_latitude _ _ _ _ _ hdec1, hpgg, hrp]
          · rw [upsert_accept2_longitude _ _ _ _ _ hdec1, hpgg, hrp]
        | some op =>
          by_cases hd : thr < hav op.1 op.2 rp.1 rp.2
          · have hfl : (_decide_geometry_merge s0.geometry p.geometry thr
                s0.last_updated p.last_updated hav).2.1 = true := by
              rw [hpgg, ht, decide_merge_fresh _ _ _ _ _ _ hinn,
                compare_both s0.geometry (some g0) thr hav op rp hop hrp,
                if_pos hd]
            have hs0g : s0.geometry = some g0 := by
              rw [(upsert_flagged_triple s0 p now1 thr hav hfl).1] at hg
              exact hg
            have hoprp : rp = op := by
              rw [hs0g] at hop
              rw [show _rep_point (some g0) =
                representative_point_from_geometry (some g0) from rfl, hrp]
                at hop
              injection hop
            rw [← hoprp] at hd
            exact absurd hd (not_lt.mpr (hself rp.1 rp.2))
          · have hdec1 : _decide_geometry_merge s0.geometry p.geometry thr
                s0.last_updated p.last_updated hav = (true, false, none) := by
              rw [hpgg, ht, decide_merge_fresh _ _ _ _ _ _ hinn,
                compare_both s0.geometry (some g0) thr hav op rp hop hrp,
                if_neg hd]
            constructor
            · rw [upsert_accept2_latitude _ _ _ _ _ hdec1, hpgg, hrp]
            · rw [upsert_accept2_longitude _ _ _ _ _ hdec1, hpgg, hrp]
      · have hstale : t < s0.last_updated := not_le.mp hs0le
        have hdec1 : _decide_geometry_merge s0.geometry p.geometry thr
            s0.last_updated p.last_updated hav = (false, false, none) := by
          rw [hpgg, ht]
          exact decide_merge_stale _ g0 thr _ t hav hstale
        have hs0g : s0.geometry = some g0 := by
          rw [upsert_norep_geometry _ _ _ _ _ hdec1] at hg
          exact hg
        constructor
        · rw [upsert_norep_latitude_geom _ _ _ _ _ g0 hs0g hdec1, hrp]
        · rw [upsert_norep_longitude_geom _ _ _ _ _ g0 hs0g hdec1, hrp]
  · intro hf1g hpg hle
    have hs0t := hkey hle
    have hdec1 : _decide_geometry_merge s0.geometry p.geometry thr
        s0.last_updated p.last_updated hav = (false, false, none) := by
      rw [hpg]
      exact decide_merge_none _ _ _ _ _
    have hs0g : s0.geometry = none := by
      rw [upsert_norep_geometry _ _ _ _ _ hdec1] at hf1g
      exact hf1g
    have hinn : incomingNewer s0.last_updated p.last_updated = true := by
      rw [ht]
      simp only [incomingNewer, decide_eq_true_eq]
      exact hs0t
    constructor
    · intro x hx
      rw [upsert_norep_latitude_nogeom _ _ _ _ _ hs0g hdec1, hinn, hx]
      simp
    · intro x hx
      rw [upsert_norep_longitude_nogeom _ _ _ _ _ hs0g hdec1, hinn, hx]
      simp
  · intro g np hpg hnp hle
    have hs0t := hkey hle
    have hinn : incomingNewer s0.last_updated (some t) = true := by
      simp only [incomingNewer, decide_eq_true_eq]
      exact hs0t
    cases hop : _rep_point s0.geometry with
    | none =>
      have hdec1 : _decide_geometry_merge s0.geometry p.geometry thr
          s0.last_updated p.last_updated hav = (true, false, none) := by
        rw [hpg, ht, decide_merge_fresh _ _ _ _ _ _ hinn]
        exact compare_old_none _ _ _ _ hop
      exact Or.inl (by rw [upsert_accept2_geometry _ _ _ _ _ hdec1, hpg])
    | some op =>
      by_cases hd : thr < hav op.1 op.2 np.1 np.2
      · have hfl : (_decide_geometry_merge s0.geometry p.geometry thr
            s0.last_updated p.last_updated hav).2.1 = true := by
          rw [hpg, ht, decide_merge_fresh _ _ _ _ _ _ hinn,
            compare_both s0.geometry (some g) thr hav op np hop hnp,
            if_pos hd]
        refine Or.inr ⟨op, ?_, hd⟩
        rw [(upsert_flagged_triple s0 p now1 thr hav hfl).1]
        exact hop
      · have hdec1 : _decide_geometry_merge s0.geometry p.geometry thr
            s0.last_updated p.last_updated hav = (true, false, none) := by
          rw [hpg, ht, decide_merge_fresh _ _ _ _ _ _ hinn,
            compare_both s0.geometry (some g) thr hav op np hop hnp,
            if_neg hd]
        exact Or.inl (by rw [upsert_accept2_geometry _ _ _ _ _ hdec1, hpg])
  · intro g hpg hnp hle
    have hs0t := hkey hle
    have hinn : incomingNewer s0.last_updated (some t) = true := by
      simp only [incomingNewer, decide_eq_true_eq]
      exact hs0t
    have hdec1 : _decide_geometry_merge s0.geometry p.geometry thr
        s0.last_updated p.last_updated hav = (true, false, none) := by
      rw [hpg, ht, decide_merge_fresh _ _ _ _ _ _ hinn]
      exact compare_new_none _ _ _ _ hnp
    rw [upsert_accept2_geometry _ _ _ _ _ hdec1, hpg]

/-- C8: resending the identical candidate (carrying its own timestamp)
is idempotent — the record state after the second reconciliation
equals the state after the first.  The distance function is assumed to
put a point at distance at most the threshold from itself, which holds
for the source's haversine (distance 0) and any non-negative
threshold. -/
theorem c8_idempotent_resend (s : Option Farm) (p : Payload)
    (t now1 now2 : ℤ) (ing : Option ℤ) (thr : ℚ)
    (hav : ℚ → ℚ → ℚ → ℚ → ℚ)
    (ht : p.last_updated = some t)
    (hself : ∀ x y : ℚ, hav x y x y ≤ thr) :
    (upsert_existing (upsert_step s p now1 ing thr hav).1 p now2 thr hav).1 =
      (upsert_step s p now1 ing thr hav).1 := by
  cases s with
  | some s0 => exact update_second_fix s0 p t now1 now2 thr hav ht hself
  | none =>
    have hstep : (upsert_step none p now1 ing thr hav).1 =
        _insert_new_farm p (to_aware_utc now1 ing) := rfl
    rw [hstep]
    refine second_call_fix _ p t now2 thr hav ht hself ?_ ?_ ?_ ?_ ?_ ?_ ?_ ?_
    · intro _
      exact insert_lu p _ t ht
    · intro _ _
      exact insert_farm_name p _
    · intro _ _
      exact insert_acreage p _
    · intro _
      exact insert_source p _
    · intro g0 rp hg hrp _
      exact insert_syncOK p _ g0 rp hg hrp
    · intro _ hpg _
      constructor
      · intro x hx
        rw [insert_latitude_char, hpg, hx]
        rfl
      · intro x hx
        rw [insert_longitude_char, hpg, hx]
        rfl
    · intro g np hpg _ _
      exact Or.inl (by rw [insert_geometry, hpg])
    · intro g hpg _ _
      rw [insert_geometry, hpg]

/-- C8 witness: a concrete resend — inserting a candidate and
reconciling the identical candidate again leaves the record
unchanged. -/
theorem c8_idempotent_resend_witness :
    (upsert_existing (upsert_step none candB 5 (some 0) 5 havZero).1 candB 7 5
      havZero).1 = (upsert_step none candB 5 (some 0) 5 havZero).1 :=
  c8_idempotent_resend none candB 1 5 7 (some 0) 5 havZero rfl
    (fun x y => by norm_num [havZero])
